import Mathlib

/-!
Shallow embedding of the pitch-deck generator's unit-extraction logic
(csv_parser.py) and of its table-layout and cell-centering logic (main.py).

Modelling conventions:
- Python floats are modelled as exact rationals (ℚ); the properties settled
  here are structural (which formula is computed, when a value is available)
  and do not depend on binary floating-point rounding.
- Python strings are Lean strings.  Python's Unicode-aware `str.isdigit` is
  modelled on the character set relevant to this domain: the ASCII digits
  plus the Latin-1 superscript digits, which Python classifies as digits but
  `float()` rejects.
- One row of `csv.DictReader` is a record of optional cells (`none` models a
  key missing from the row).
-/

attribute [local semireducible] Rat.add Rat.mul Rat.inv Rat.sub

/-- Python `str.isdigit` on the modelled character set: ASCII digits plus the
Latin-1 superscript digits `¹ ² ³` whose Unicode `Numeric_Type` is `Digit`, so
Python's `str.isdigit` accepts them although `float()` does not.  Unicode
digit characters outside this set are not modelled. -/
def pyIsDigit (c : Char) : Bool :=
  c.isDigit || c == '¹' || c == '²' || c == '³'

/-- The characters kept by the comprehension
`''.join(c for c in s if c.isdigit() or c == '.')`
(csv_parser.py lines 52, 58, 85, 86 and 97). -/
def keepDigitsDots (s : String) : List Char :=
  s.data.filter (fun c => pyIsDigit c || c == '.')

/-- Value of a list of ASCII decimal digits read positionally. -/
def digitsVal (l : List Char) : ℕ :=
  l.foldl (fun a c => 10 * a + (c.toNat - 48)) 0

/-- Python `float(s)` on a string made of the characters kept by
`keepDigitsDots`: the parse succeeds exactly when the string consists of
ASCII digits and at most one literal dot and contains at least one digit
(so `""`, `"."`, `"1.2.3"` and any string with a superscript digit raise
`ValueError`, modelled as `none`); on success the value is the decimal
number `intpart.fracpart`. -/
def pyFloat (l : List Char) : Option ℚ :=
  if l.all (fun c => c.isDigit || c == '.') && l.count '.' ≤ 1 && l.any Char.isDigit then
    some ((digitsVal (l.takeWhile (fun c => c != '.')) : ℚ) +
      (digitsVal ((l.dropWhile (fun c => c != '.')).drop 1) : ℚ) /
        ((10 ^ ((l.dropWhile (fun c => c != '.')).drop 1).length : ℕ) : ℚ))
  else none

/-- The spec's Field Normalizer (spec 4.1), as implemented:
`float(''.join(c for c in raw if c.isdigit() or c == '.'))` with a
`ValueError` answered by absence. -/
def normalize_numeric (raw : String) : Option ℚ :=
  pyFloat (keepDigitsDots raw)

/-- Variant that follows the spec's words instead of the code, for
comparison: strips every character that is not an ASCII digit or a literal
decimal point, then parses the residue. -/
def normalize_numeric_ascii (raw : String) : Option ℚ :=
  pyFloat (s.data.filter (fun c => c.isDigit || c == '.')) where s := raw

/-- Python `str.strip()` with its default whitespace set, modelled on the
whitespace characters `Char.isWhitespace` recognises. -/
def pyStrip (s : String) : String :=
  String.mk (((s.data.dropWhile Char.isWhitespace).reverse.dropWhile Char.isWhitespace).reverse)

/-- Tax resolution of csv_parser.py lines 44-75: both raw fields are
stripped, each is normalized independently with any failure or emptiness
counting as 0, then VAT is chosen if its amount is strictly positive, else
Transfer Fee if its amount is strictly positive, else neither.  The result
is `(tax_type, tax_value, tax_amount)`; note that `tax_value` is the
stripped cell text. -/
def resolve_tax (vat_raw transfer_fee_raw : String) : String × String × ℚ :=
  let vat_str := pyStrip vat_raw
  let transfer_fee_str := pyStrip transfer_fee_raw
  let vat_value : ℚ := if vat_str = "" then 0 else (normalize_numeric vat_str).getD 0
  let transfer_fee_value : ℚ :=
    if transfer_fee_str = "" then 0 else (normalize_numeric transfer_fee_str).getD 0
  if 0 < vat_value then ("VAT", vat_str, vat_value)
  else if 0 < transfer_fee_value then ("Transfer Fee", transfer_fee_str, transfer_fee_value)
  else ("", "", 0)

/-- Derived metrics of csv_parser.py lines 83-103.  All three values are
computed inside one `try` block, in source order: asking price is parsed,
then total covered area, then (only when the rental-rate cell is non-empty)
the rental rate; the first `ValueError` jumps to the `except` clause, which
resets every metric to 0.  The result is `(total_cost, price_per_m2, roi)`. -/
def derive_metrics (asking_price_str total_covered_str rental_rate : String)
    (tax_amount : ℚ) : ℚ × ℚ × ℚ :=
  match normalize_numeric asking_price_str with
  | none => (0, 0, 0)
  | some asking_price =>
    match normalize_numeric total_covered_str with
    | none => (0, 0, 0)
    | some total_covered =>
      let price_per_m2 := if 0 < total_covered then asking_price / total_covered else 0
      let total_cost := asking_price + tax_amount
      if rental_rate = "" then (total_cost, price_per_m2, 0)
      else
        match normalize_numeric rental_rate with
        | none => (0, 0, 0)
        | some rent =>
          let annual_rental := rent * 12
          (total_cost, price_per_m2,
            if 0 < asking_price then annual_rental / asking_price * 100 else 0)

/-- Decimal digit character for a value below ten. -/
def digitChar (n : ℕ) : Char :=
  Char.ofNat (48 + n % 10)

/-- Decimal digits of `n`, least significant first; the fuel argument makes
the recursion structural and one unit of fuel is spent per digit. -/
def natDigitsRevFuel : ℕ → ℕ → List Char
  | 0, _ => []
  | fuel + 1, n => if n < 10 then [digitChar n] else digitChar (n % 10) :: natDigitsRevFuel fuel (n / 10)

/-- Decimal digits of `n`, least significant first. -/
def natDigitsRev (n : ℕ) : List Char :=
  natDigitsRevFuel (n + 1) n

/-- Insert a comma after every third element of a reversed digit list. -/
def groupThreesFuel : ℕ → List Char → List Char
  | 0, ds => ds
  | fuel + 1, ds => if ds.length ≤ 3 then ds else ds.take 3 ++ ',' :: groupThreesFuel fuel (ds.drop 3)

/-- Comma grouping of a reversed digit list. -/
def groupThrees (ds : List Char) : List Char :=
  groupThreesFuel ds.length ds

/-- Round half to even, the rounding Python's string formatting applies. -/
def roundHalfEven (x : ℚ) : ℤ :=
  let n := Rat.floor x
  if x - n < 1 / 2 then n
  else if (1 : ℚ) / 2 < x - n then n + 1
  else if n % 2 = 0 then n else n + 1

/-- Python `f"{x:,.0f}"`: round to an integer and insert thousands
separators (the code applies it to positive values only). -/
def formatCommas (x : ℚ) : String :=
  String.mk (groupThrees (natDigitsRev (roundHalfEven x).toNat)).reverse

/-- Python `f"{x:.1f}%"`: one decimal digit and a trailing percent sign
(the code applies it to positive values only). -/
def formatRoi (x : ℚ) : String :=
  let t := (roundHalfEven (10 * x)).toNat
  String.mk ((natDigitsRev (t / 10)).reverse ++ '.' :: (natDigitsRev (t % 10)).reverse ++ ['%'])

/-- One `csv.DictReader` row restricted to the nine keys the code reads.
`none` models a key missing from the row, `some s` a present cell. -/
structure Row where
  unitId : Option String
  floor : Option String
  typology : Option String
  internalArea : Option String
  totalCoveredArea : Option String
  askingPrice : Option String
  vat : Option String
  transferFee : Option String
  rentalRate : Option String
deriving DecidableEq

/-- Bedroom extraction of csv_parser.py lines 38-41: the first character of
the typology cell when Python's `isdigit` accepts it, else empty. -/
def bedroom_count (typology : String) : String :=
  match typology.data with
  | [] => ""
  | c :: _ => if pyIsDigit c then String.mk [c] else ""

/-- The finished record of csv_parser.py lines 106-119: the Python dict with
exactly these twelve keys, every value a string. -/
structure UnitRecord where
  unit_id : String
  floor : String
  bedrooms : String
  internal_area : String
  total_covered : String
  asking_price : String
  tax_type : String
  tax_value : String
  total_cost : String
  price_per_m2 : String
  rental_rate : String
  roi : String
deriving DecidableEq

/-- Tax triple of a row (csv_parser.py lines 44-75). -/
def row_tax (row : Row) : String × String × ℚ :=
  resolve_tax (row.vat.getD "") (row.transferFee.getD "")

/-- Metric triple of a row (csv_parser.py lines 77-103); note the defaults:
a missing asking price or total covered area key defaults to the text "0",
a missing rental rate key to the empty text. -/
def row_metrics (row : Row) : ℚ × ℚ × ℚ :=
  derive_metrics (row.askingPrice.getD "0") (row.totalCoveredArea.getD "0")
    (row.rentalRate.getD "") (row_tax row).2.2

/-- Unit record builder of csv_parser.py lines 36-121 for one row; a derived
metric is rendered only when strictly positive, otherwise as the empty
string. -/
def build_unit (row : Row) : UnitRecord :=
  let tax := row_tax row
  let m := row_metrics row
  { unit_id := row.unitId.getD ""
    floor := row.floor.getD ""
    bedrooms := bedroom_count (row.typology.getD "")
    internal_area := row.internalArea.getD ""
    total_covered := row.totalCoveredArea.getD ""
    asking_price := row.askingPrice.getD ""
    tax_type := tax.1
    tax_value := tax.2.1
    total_cost := if 0 < m.1 then formatCommas m.1 else ""
    price_per_m2 := if 0 < m.2.1 then formatCommas m.2.1 else ""
    rental_rate := row.rentalRate.getD ""
    roi := if 0 < m.2.2 then formatRoi m.2.2 else "" }

/-- What opening and reading the CSV file can yield, as the code observes
it: the file may be missing (checked before the `try`), the read or parse
may raise inside the `try`, the reader may report no header row (which
raises `ValueError` inside the `try`), or the rows are obtained. -/
inductive CsvSource where
  | missing : CsvSource
  | readFailure : CsvSource
  | content : Bool → List Row → CsvSource

/-- Top level of extract_units_from_csv (csv_parser.py lines 5-126): a
missing file raises `FileNotFoundError` before the `try`; any exception
inside the `try` (unreadable source, missing headers) reaches the catch-all
`except`, which logs and returns the empty list; otherwise every row is
mapped to a unit record, in order. -/
def extract_units_from_csv : CsvSource → Except String (List UnitRecord)
  | CsvSource.missing => Except.error "CSV file not found"
  | CsvSource.readFailure => Except.ok []
  | CsvSource.content false _ => Except.ok []
  | CsvSource.content true rows => Except.ok (rows.map build_unit)

/-- Python `int(x)` applied to a numeric value: truncation toward zero. -/
def pyint (q : ℚ) : ℤ :=
  if 0 ≤ q then Rat.floor q else -Rat.floor (-q)

/-- The proportional rescaling of main.py line 160: every nominal width `w`
becomes `int(w * (total_width / nominal_sum))`. -/
def scaled_widths (ws : List ℤ) (T : ℤ) : List ℤ :=
  ws.map (fun w : ℤ => pyint ((w : ℚ) * ((T : ℚ) / (ws.sum : ℚ))))

/-- Add an amount to the last element of a list (main.py line 163 adds the
rounding remainder to the `roi` key, the last one in iteration order). -/
def addToLast : List ℤ → ℤ → List ℤ
  | [], _ => []
  | [w], a => [w + a]
  | w :: v :: rest, a => w :: addToLast (v :: rest) a

/-- Column width planning of main.py lines 155-163: when the nominal sum
already equals the target the widths are kept, otherwise each width is
rescaled proportionally and truncated and the rounding remainder is added
to the last column. -/
def plan_widths (ws : List ℤ) (T : ℤ) : List ℤ :=
  if ws.sum = T then ws
  else addToLast (scaled_widths ws T) (T - (scaled_widths ws T).sum)

/-- Planning over named columns, keeping the names in input order. -/
def plan_layout (cols : List (String × ℤ)) (T : ℤ) : List (String × ℤ) :=
  (cols.map Prod.fst).zip (plan_widths (cols.map Prod.snd) T)

/-- Absolute column start offsets of main.py lines 165-170: a running
position starting at the left margin, advanced by each final width. -/
def column_offsets (left_margin : ℚ) : List ℤ → List ℚ
  | [] => []
  | w :: ws => left_margin :: column_offsets (left_margin + (w : ℚ)) ws

/-- Cell text centering of main.py lines 200-218.  The drawing surface's
font-metric query `c.stringWidth` is abstracted as a function of the header
flag (which selects the font) and the text; the font size is the literal 7
of the code and the visual correction constant its literal 0.3. -/
def draw_centered_text (stringWidth : Bool → String → ℚ)
    (x width y_top y_bottom : ℚ) (text : String) (is_header : Bool) : ℚ × ℚ :=
  let font_size : ℚ := 7
  let text_width := stringWidth is_header text
  let centered_x := x + (width - text_width) / 2
  let cell_height := y_top - y_bottom
  let text_height := font_size
  let centered_y := y_bottom + (cell_height - text_height) / 2 + text_height * (3 / 10)
  (centered_x, centered_y)

/-! Helper lemmas. -/

theorem rat_floor_eq_floor (q : ℚ) : Rat.floor q = ⌊q⌋ :=
  (Rat.floor_def' q).trans Rat.floor_def.symm

theorem pyint_eq_floor {q : ℚ} (h : 0 ≤ q) : pyint q = ⌊q⌋ := by
  simp [pyint, h, rat_floor_eq_floor]

theorem pyint_intCast (n : ℤ) : pyint (n : ℚ) = n := by
  rcases le_or_lt 0 (n : ℚ) with h | h
  · rw [pyint_eq_floor h, Int.floor_intCast]
  · rw [pyint, if_neg (not_le.mpr h), rat_floor_eq_floor, ← Int.cast_neg,
      Int.floor_intCast, neg_neg]

theorem pyint_nonneg {q : ℚ} (h : 0 ≤ q) : 0 ≤ pyint q := by
  rw [pyint_eq_floor h]
  exact Int.floor_nonneg.mpr h

theorem pyint_le {q : ℚ} (h : 0 ≤ q) : (pyint q : ℚ) ≤ q := by
  rw [pyint_eq_floor h]
  exact Int.floor_le q

theorem string_mk_ne_empty {l : List Char} (h : l ≠ []) : String.mk l ≠ "" :=
  fun he => h (by simpa using congrArg String.data he)

theorem natDigitsRev_ne_nil (n : ℕ) : natDigitsRev n ≠ [] := by
  unfold natDigitsRev natDigitsRevFuel
  split <;> simp

theorem groupThreesFuel_ne_nil : ∀ (f : ℕ) (ds : List Char), ds ≠ [] → groupThreesFuel f ds ≠ []
  | 0, ds, h => by simpa [groupThreesFuel] using h
  | f + 1, ds, h => by
    unfold groupThreesFuel
    split
    · exact h
    · simp

theorem groupThrees_ne_nil {ds : List Char} (h : ds ≠ []) : groupThrees ds ≠ [] :=
  groupThreesFuel_ne_nil _ _ h

theorem formatCommas_ne_empty (x : ℚ) : formatCommas x ≠ "" := by
  unfold formatCommas
  exact string_mk_ne_empty
    (fun hc => groupThrees_ne_nil (natDigitsRev_ne_nil _) (by simpa using hc))

theorem formatRoi_ne_empty (x : ℚ) : formatRoi x ≠ "" := by
  simp only [formatRoi]
  apply string_mk_ne_empty
  simp

/-- Claim C7: for every cell and text the centering routine returns
`draw_x = cell_left + (cell_width - text_width) / 2` and
`draw_y = cell_bottom + (cell_height - font_size) / 2 + font_size * 0.3`
with the fixed font size 7 and fixed correction constant `K = 0.3`, and it
never clamps: the left overhang always equals the right overhang, and when
the text is wider than the cell the draw position lies strictly left of the
cell. -/
theorem draw_centered_text_spec (sw : Bool → String → ℚ) (x w yt yb : ℚ)
    (t : String) (hdr : Bool) :
    (draw_centered_text sw x w yt yb t hdr).1 = x + (w - sw hdr t) / 2 ∧
    (draw_centered_text sw x w yt yb t hdr).2
      = yb + ((yt - yb) - 7) / 2 + 7 * (3 / 10) ∧
    x - (draw_centered_text sw x w yt yb t hdr).1
      = ((draw_centered_text sw x w yt yb t hdr).1 + sw hdr t) - (x + w) ∧
    (w < sw hdr t → (draw_centered_text sw x w yt yb t hdr).1 < x) := by
  have h1 : (draw_centered_text sw x w yt yb t hdr).1 = x + (w - sw hdr t) / 2 := rfl
  refine ⟨h1, rfl, by rw [h1]; ring, fun h => ?_⟩
  rw [h1]
  linarith

/-- Claim C7 witness: a cell of width 10 holding a text of measured width 28
gets a draw position strictly left of the cell's left edge. -/
theorem draw_centered_text_spec_witness :
    (draw_centered_text (fun _ s => 4 * (s.length : ℚ)) 0 10 20 0 "toolong" true).1 < 0 :=
  (draw_centered_text_spec (fun _ s => 4 * (s.length : ℚ)) 0 10 20 0 "toolong" true).2.2.2
    (by decide)

/-- Claim C8 counterexample: a failure while reading the source is not
surfaced: the catch-all handler converts it into a successful empty batch,
indistinguishable from a file with no data rows. -/
theorem extract_read_failure_cex :
    extract_units_from_csv CsvSource.readFailure = Except.ok [] := rfl

/-- Claim C8 (amended): only a missing file is fatal and surfaced to the
caller; a failure while reading the source, like a header-less file, is
caught by the catch-all handler and yields a successful empty list rather
than an error; rows actually obtained are never dropped: each yields exactly
one record, in order. -/
theorem extract_units_error_spec :
    (∃ e, extract_units_from_csv CsvSource.missing = Except.error e) ∧
    extract_units_from_csv CsvSource.readFailure = Except.ok [] ∧
    (∀ rows, extract_units_from_csv (CsvSource.content false rows) = Except.ok []) ∧
    (∀ rows, extract_units_from_csv (CsvSource.content true rows)
        = Except.ok (rows.map build_unit) ∧ (rows.map build_unit).length = rows.length) :=
  ⟨⟨"CSV file not found", rfl⟩, rfl, fun _ => rfl, fun rows => ⟨rfl, rows.length_map _⟩⟩

/-- Claim C2 counterexample: the display text of the chosen tax kind is the
whitespace-stripped cell text, not the original raw text of the field: the
raw VAT cell " 19% " is displayed as "19%". -/
theorem resolve_tax_display_cex :
    resolve_tax " 19% " "" = ("VAT", "19%", 19) ∧
    (resolve_tax " 19% " "").2.1 ≠ " 19% " :=
  ⟨by decide, by decide⟩

/-- Claim C2 (amended): exactly one tax kind is selected: VAT whenever its
normalized amount is strictly greater than 0 regardless of the transfer
fee's magnitude, otherwise Transfer Fee when its normalized amount is
strictly greater than 0, otherwise neither, with empty display text and
amount 0; the display text of the chosen kind is the whitespace-stripped
raw text of that field. -/
theorem resolve_tax_spec (v t : String) :
    (0 < (normalize_numeric (pyStrip v)).getD 0 →
      resolve_tax v t = ("VAT", pyStrip v, (normalize_numeric (pyStrip v)).getD 0)) ∧
    (¬ 0 < (normalize_numeric (pyStrip v)).getD 0 →
      0 < (normalize_numeric (pyStrip t)).getD 0 →
      resolve_tax v t
        = ("Transfer Fee", pyStrip t, (normalize_numeric (pyStrip t)).getD 0)) ∧
    (¬ 0 < (normalize_numeric (pyStrip v)).getD 0 →
      ¬ 0 < (normalize_numeric (pyStrip t)).getD 0 →
      resolve_tax v t = ("", "", 0)) := by
  have hv : (if pyStrip v = "" then (0 : ℚ) else (normalize_numeric (pyStrip v)).getD 0)
      = (normalize_numeric (pyStrip v)).getD 0 := by
    split
    · rename_i h
      rw [h]
      rfl
    · rfl
  have ht : (if pyStrip t = "" then (0 : ℚ) else (normalize_numeric (pyStrip t)).getD 0)
      = (normalize_numeric (pyStrip t)).getD 0 := by
    split
    · rename_i h
      rw [h]
      rfl
    · rfl
  refine ⟨fun h1 => ?_, fun h1 h2 => ?_, fun h1 h2 => ?_⟩
  · simp only [resolve_tax, hv, ht]
    rw [if_pos h1]
  · simp only [resolve_tax, hv, ht]
    rw [if_neg h1, if_pos h2]
  · simp only [resolve_tax, hv, ht]
    rw [if_neg h1, if_neg h2]

/-- Claim C2 witness: a parse-positive VAT cell wins over a parse-positive
transfer-fee cell. -/
theorem resolve_tax_spec_witness :
    resolve_tax "19%" "5" = ("VAT", "19%", 19) := by
  have h := (resolve_tax_spec "19%" "5").1 (by decide)
  rw [h]
  decide

/-- Claim C5 counterexample: the code keeps every character Python's
`str.isdigit` accepts, not only ASCII digits: on the input "2²" the kept
residue is "2²", which `float()` rejects, so the implementation yields
absence, while stripping to ASCII digits and dots as the claim states
yields the value 2. -/
theorem normalize_numeric_unicode_cex :
    normalize_numeric "2²" = none ∧ normalize_numeric_ascii "2²" = some 2 :=
  ⟨by decide, by decide⟩

/-- Claim C5 (amended): normalize_numeric keeps, in original order, exactly
the characters Python's `isdigit` accepts — a superset of the ASCII digits
including the superscript digits — plus literal decimal points, and returns
the parsed value of the residue; it agrees with the ASCII-stripping reading
on every string free of superscript digits; for every string with no
digit-classified character (in particular every empty or fully non-numeric
string) it returns absence rather than throwing, and every returned value
is nonnegative, so absence can be treated as zero contribution. -/
theorem normalize_numeric_spec (s : String) :
    (s.data.all (fun c => !(c == '¹' || c == '²' || c == '³')) →
      normalize_numeric s = normalize_numeric_ascii s) ∧
    (s.data.all (fun c => !pyIsDigit c) → normalize_numeric s = none) ∧
    (∀ q, normalize_numeric s = some q → 0 ≤ q) := by
  refine ⟨fun h => ?_, fun h => ?_, fun q hq => ?_⟩
  · unfold normalize_numeric normalize_numeric_ascii keepDigitsDots
    congr 1
    apply List.filter_congr
    intro c hc
    have hc2 := List.all_eq_true.mp h c hc
    simp only [Bool.not_eq_true', Bool.or_eq_false_iff] at hc2
    simp [pyIsDigit, hc2.1.1, hc2.1.2, hc2.2]
  · unfold normalize_numeric pyFloat
    have hd : (keepDigitsDots s).any Char.isDigit = false := by
      rw [List.any_eq_false]
      intro c hc
      rcases List.mem_filter.mp hc with ⟨hcs, hcp⟩
      have hc2 := List.all_eq_true.mp h c hcs
      simp only [Bool.not_eq_true'] at hc2
      rcases Bool.or_eq_true_iff.mp hcp with hp | hdot
      · rw [hc2] at hp
        exact absurd hp (by simp)
      · simp only [beq_iff_eq] at hdot
        subst hdot
        decide
    rw [hd]
    simp
  · unfold normalize_numeric pyFloat at hq
    split at hq
    · have hq2 := Option.some.inj hq
      rw [← hq2]
      positivity
    · exact absurd hq (by simp)

/-- Claim C5 witness: on an ASCII-noise currency string the implementation
agrees with the ASCII reading, and a fully non-numeric string is absent. -/
theorem normalize_numeric_spec_witness :
    normalize_numeric "€300,000" = normalize_numeric_ascii "€300,000" ∧
    normalize_numeric "n/a" = none :=
  ⟨(normalize_numeric_spec "€300,000").1 (by decide),
    (normalize_numeric_spec "n/a").2.1 (by decide)⟩

/-- Claim C9 counterexample: the guard is Python's `isdigit`, not "is an
ASCII digit": the typology "²X" begins with the superscript two, which is
not an ASCII digit, yet the bedroom count is "²" rather than empty. -/
theorem bedroom_count_unicode_cex :
    bedroom_count "²X" = "²" ∧ bedroom_count "²X" ≠ "" ∧ Char.isDigit '²' = false :=
  ⟨by decide, by decide, by decide⟩

/-- Claim C9 (amended): the bedroom count is the single first character of
the typology exactly when Python's `isdigit` accepts it — a superset of the
ASCII digits including the superscript digits — and is the empty string for
any other or absent leading character, without error; multi-digit counts
are not parsed, so a typology beginning "10" yields "1". -/
theorem bedroom_count_spec (t : String) :
    (t = "" → bedroom_count t = "") ∧
    (∀ c rest, t.data = c :: rest → pyIsDigit c → bedroom_count t = String.mk [c]) ∧
    (∀ c rest, t.data = c :: rest → ¬ pyIsDigit c → bedroom_count t = "") := by
  refine ⟨fun h => by subst h; rfl, fun c rest h hd => ?_, fun c rest h hd => ?_⟩
  · unfold bedroom_count
    rw [h]
    simp [hd]
  · unfold bedroom_count
    rw [h]
    simp [hd]

/-- Claim C9 witness: a typology beginning with "10" yields the single
digit "1". -/
theorem bedroom_count_spec_witness : bedroom_count "10 bedrooms" = "1" := by
  have h := (bedroom_count_spec "10 bedrooms").2.1 '1' "0 bedrooms".data (by decide) (by decide)
  rw [h]

theorem derive_roi_of_empty_rental (ap ta : String) (tax : ℚ) :
    (derive_metrics ap ta "" tax).2.2 = 0 := by
  unfold derive_metrics
  cases hap : normalize_numeric ap with
  | none => rfl
  | some a =>
    cases hta : normalize_numeric ta with
    | none => rfl
    | some t => simp

theorem derive_ppm2_of_area_zero (ap rr : String) (tax : ℚ) :
    (derive_metrics ap "0" rr tax).2.1 = 0 := by
  unfold derive_metrics
  cases hap : normalize_numeric ap with
  | none => rfl
  | some a =>
    rw [show normalize_numeric "0" = some 0 by decide]
    rcases eq_or_ne rr "" with h | h
    · simp [h]
    · cases hr : normalize_numeric rr with
      | none => simp [h, hr]
      | some r => simp [h, hr]

theorem derive_price_zero (ta rr : String) (tax : ℚ) :
    (derive_metrics "0" ta rr tax).2.1 = 0 ∧ (derive_metrics "0" ta rr tax).2.2 = 0 := by
  unfold derive_metrics
  rw [show normalize_numeric "0" = some 0 by decide]
  cases hta : normalize_numeric ta with
  | none => exact ⟨rfl, rfl⟩
  | some t =>
    constructor
    · rcases eq_or_ne rr "" with h | h
      · simp [h]
      · cases hr : normalize_numeric rr with
        | none => simp [h, hr]
        | some r => simp [h, hr]
    · rcases eq_or_ne rr "" with h | h
      · simp [h]
      · cases hr : normalize_numeric rr with
        | none => simp [h, hr]
        | some r => simp [h, hr]

theorem build_unit_total_cost (row : Row) :
    (build_unit row).total_cost
      = if 0 < (row_metrics row).1 then formatCommas (row_metrics row).1 else "" := rfl

theorem build_unit_price_per_m2 (row : Row) :
    (build_unit row).price_per_m2
      = if 0 < (row_metrics row).2.1 then formatCommas (row_metrics row).2.1 else "" := rfl

theorem build_unit_roi (row : Row) :
    (build_unit row).roi
      = if 0 < (row_metrics row).2.2 then formatRoi (row_metrics row).2.2 else "" := rfl

/-- Claim C1 counterexample: with asking price "100" (which normalizes to
100), total area "x" (which fails to normalize) and no rental rate, the
shared exception handler resets total_cost to 0 — rendered unavailable —
although the claim requires total_cost = asking_price + tax_amount = 100
whenever the asking price normalizes successfully. -/
theorem derive_metrics_total_cost_cex :
    normalize_numeric "100" = some 100 ∧ normalize_numeric "x" = none ∧
    (derive_metrics "100" "x" "" 0).1 = 0 ∧
    (derive_metrics "100" "x" "" 0).1 ≠ 100 + 0 :=
  ⟨by decide, by decide, by decide, by decide⟩

/-- Claim C1 (amended): the three derived metrics are produced by one
fallible block: when asking price, total area and — when the cell is
non-empty — the rental rate all normalize, then total_cost = asking_price +
tax_amount, price_per_area = asking_price / total_area if total_area is
strictly positive and 0 (rendered unavailable) otherwise with no division
by zero, and roi_percent = (rental_rate * 12 / asking_price) * 100 if the
rental rate is present and the asking price strictly positive and 0
(rendered unavailable) otherwise; when any of those three normalizations
fails, all three metrics are reset and rendered unavailable. -/
theorem derive_metrics_spec (ap ta rr : String) (tax : ℚ) :
    (∀ a t, normalize_numeric ap = some a → normalize_numeric ta = some t →
      (rr = "" → derive_metrics ap ta rr tax
          = (a + tax, if 0 < t then a / t else 0, 0)) ∧
      ∀ r, normalize_numeric rr = some r →
        derive_metrics ap ta rr tax
          = (a + tax, if 0 < t then a / t else 0,
              if 0 < a then r * 12 / a * 100 else 0)) ∧
    (normalize_numeric ap = none → derive_metrics ap ta rr tax = (0, 0, 0)) ∧
    (normalize_numeric ta = none → derive_metrics ap ta rr tax = (0, 0, 0)) ∧
    (rr ≠ "" → normalize_numeric rr = none →
      derive_metrics ap ta rr tax = (0, 0, 0)) := by
  refine ⟨fun a t hap hta => ⟨fun h => ?_, fun r hrr => ?_⟩,
    fun hap => ?_, fun hta => ?_, fun hne hr => ?_⟩
  · unfold derive_metrics
    rw [hap, hta]
    subst h
    simp
  · by_cases h : rr = ""
    · subst h
      rw [show normalize_numeric "" = none by decide] at hrr
      cases hrr
    · unfold derive_metrics
      rw [hap, hta]
      simp [h, hrr]
  · unfold derive_metrics
    rw [hap]
  · unfold derive_metrics
    cases hap2 : normalize_numeric ap with
    | none => rfl
    | some a =>
      rw [hta]
  · unfold derive_metrics
    cases hap2 : normalize_numeric ap with
    | none => rfl
    | some a =>
      cases hta2 : normalize_numeric ta with
      | none => rfl
      | some t =>
        simp [hne, hr]

/-- Claim C1 witness: a fully valid row computes all three formulas. -/
theorem derive_metrics_spec_witness :
    derive_metrics "100" "50" "10" 5 = (105, 2, 120) := by
  have h := ((derive_metrics_spec "100" "50" "10" 5).1 100 50
    (by decide) (by decide)).2 10 (by decide)
  rw [h]
  decide

/-- Claim C3 counterexample: metrics are not computed independently: in a
row with the valid asking price "100" and no tax, the failing total area
"x" empties the total-cost display as well, although total_cost's own
inputs are present and valid. -/
theorem metric_independence_cex :
    normalize_numeric "100" = some 100 ∧ normalize_numeric "x" = none ∧
    (build_unit ⟨none, none, none, none, some "x", some "100", none, none, none⟩).total_cost
      = "" :=
  ⟨by decide, by decide, by decide⟩

/-- Claim C3 (amended): the derived metrics are not independent: they share
one fallible block, so a normalization failure of the total area, or of a
non-empty rental rate, marks all three metrics unavailable; only absence is
harmless — an empty rental-rate cell leaves total cost and price per area
computed — and no row is ever dropped: every obtained row yields exactly
one record, in its input position. -/
theorem derive_metrics_coupling_spec (ap ta rr : String) (tax : ℚ) :
    (normalize_numeric ta = none → derive_metrics ap ta rr tax = (0, 0, 0)) ∧
    (rr ≠ "" → normalize_numeric rr = none →
      derive_metrics ap ta rr tax = (0, 0, 0)) ∧
    (∀ a t, normalize_numeric ap = some a → normalize_numeric ta = some t →
      derive_metrics ap ta "" tax = (a + tax, if 0 < t then a / t else 0, 0)) ∧
    (∀ rows : List Row, extract_units_from_csv (CsvSource.content true rows)
        = Except.ok (rows.map build_unit)) := by
  refine ⟨fun hta => ?_, fun hne hr => ?_, fun a t hap hta => ?_, fun rows => rfl⟩
  · unfold derive_metrics
    cases hap2 : normalize_numeric ap with
    | none => rfl
    | some a => rw [hta]
  · unfold derive_metrics
    cases hap2 : normalize_numeric ap with
    | none => rfl
    | some a =>
      cases hta2 : normalize_numeric ta with
      | none => rfl
      | some t =>
        simp [hne, hr]
  · unfold derive_metrics
    rw [hap, hta]
    simp

/-- Claim C3 witness: an unparseable total area empties every metric of an
otherwise valid row. -/
theorem derive_metrics_coupling_witness :
    derive_metrics "7" "abc" "" 3 = (0, 0, 0) :=
  (derive_metrics_coupling_spec "7" "abc" "" 3).1 (by decide)

/-- Claim C6 counterexample: a legitimately computed total cost of zero
(asking price "0", no tax) is rendered exactly like a failed computation:
both display as the empty string, so a computed zero is not distinguishable
in the output from "could not compute". -/
theorem zero_display_cex :
    normalize_numeric "0" = some 0 ∧ normalize_numeric "x" = none ∧
    (build_unit ⟨none, none, none, none, some "10", some "0", none, none, none⟩).total_cost
      = "" ∧
    (build_unit ⟨none, none, none, none, some "10", some "x", none, none, none⟩).total_cost
      = "" :=
  ⟨by decide, by decide, by decide, by decide⟩

/-- Claim C6 (amended): every unavailable derived metric is rendered as the
empty display string, never as zero or a sentinel number; however the
renderer's availability test is strict positivity of the stored value, so a
legitimately computed value of zero is rendered as the empty string as well
and is not distinguishable from a metric that could not be computed. -/
theorem metric_display_spec (row : Row) :
    ((build_unit row).total_cost = "" ↔ (row_metrics row).1 ≤ 0) ∧
    ((build_unit row).price_per_m2 = "" ↔ (row_metrics row).2.1 ≤ 0) ∧
    ((build_unit row).roi = "" ↔ (row_metrics row).2.2 ≤ 0) := by
  refine ⟨?_, ?_, ?_⟩
  · rw [build_unit_total_cost]
    split
    · rename_i h
      exact ⟨fun he => absurd he (formatCommas_ne_empty _),
        fun hle => absurd h (not_lt.mpr hle)⟩
    · rename_i h
      exact ⟨fun _ => not_lt.mp h, fun _ => rfl⟩
  · rw [build_unit_price_per_m2]
    split
    · rename_i h
      exact ⟨fun he => absurd he (formatCommas_ne_empty _),
        fun hle => absurd h (not_lt.mpr hle)⟩
    · rename_i h
      exact ⟨fun _ => not_lt.mp h, fun _ => rfl⟩
  · rw [build_unit_roi]
    split
    · rename_i h
      exact ⟨fun he => absurd he (formatRoi_ne_empty _),
        fun hle => absurd h (not_lt.mpr hle)⟩
    · rename_i h
      exact ⟨fun _ => not_lt.mp h, fun _ => rfl⟩

/-- Claim C6 witness: a row with no data computes a zero return on
investment and displays it as the empty string. -/
theorem metric_display_witness :
    (build_unit ⟨none, none, none, none, none, none, none, none, none⟩).roi = "" :=
  (metric_display_spec ⟨none, none, none, none, none, none, none, none, none⟩).2.2.mpr
    (by decide)

/-- Claim C10 counterexample: a row whose asking-price key is missing but
whose VAT cell parses to 5000 gets total_cost "5,000", not the empty
string: the missing key defaults to the text "0", which parses as zero, and
the affected derived field is then populated from the tax amount alone. -/
theorem build_unit_missing_key_cex :
    (⟨none, none, none, none, none, none, some "5000", none, none⟩ : Row).askingPrice
      = none ∧
    (build_unit ⟨none, none, none, none, none, none, some "5000", none, none⟩).total_cost
      = "5,000" ∧
    (build_unit ⟨none, none, none, none, none, none, some "5000", none, none⟩).total_cost
      ≠ "" :=
  ⟨rfl, by decide, by decide⟩

/-- Claim C10 (amended): every row yields a complete record with the fixed
twelve string fields; a row missing a source key still yields the empty
string for the fields copied from that key and for the derived metrics that
need it — bedrooms for a missing typology, price per area and roi for a
missing asking price, price per area for a missing total area, roi for a
missing rental rate — with one exception: total_cost is not emptied by a
missing asking-price key, because that key defaults to the text "0" and
total_cost can still be rendered from a positive tax amount. -/
theorem build_unit_missing_keys_spec (row : Row) :
    (row.unitId = none → (build_unit row).unit_id = "") ∧
    (row.floor = none → (build_unit row).floor = "") ∧
    (row.typology = none → (build_unit row).bedrooms = "") ∧
    (row.internalArea = none → (build_unit row).internal_area = "") ∧
    (row.totalCoveredArea = none →
      (build_unit row).total_covered = "" ∧ (build_unit row).price_per_m2 = "") ∧
    (row.askingPrice = none →
      (build_unit row).asking_price = "" ∧ (build_unit row).price_per_m2 = "" ∧
        (build_unit row).roi = "") ∧
    (row.rentalRate = none →
      (build_unit row).rental_rate = "" ∧ (build_unit row).roi = "") := by
  refine ⟨fun h => ?_, fun h => ?_, fun h => ?_, fun h => ?_, fun h => ?_,
    fun h => ?_, fun h => ?_⟩
  · simp [build_unit, h]
  · simp [build_unit, h]
  · simp [build_unit, h, bedroom_count]
  · simp [build_unit, h]
  · refine ⟨by simp [build_unit, h], ?_⟩
    rw [build_unit_price_per_m2]
    have hm : (row_metrics row).2.1 = 0 := by
      unfold row_metrics
      rw [h]
      exact derive_ppm2_of_area_zero _ _ _
    rw [hm]
    simp
  · have hm := derive_price_zero (row.totalCoveredArea.getD "0")
      (row.rentalRate.getD "") (row_tax row).2.2
    refine ⟨by simp [build_unit, h], ?_, ?_⟩
    · rw [build_unit_price_per_m2]
      have hz : (row_metrics row).2.1 = 0 := by
        unfold row_metrics
        rw [h]
        exact hm.1
      rw [hz]
      simp
    · rw [build_unit_roi]
      have hz : (row_metrics row).2.2 = 0 := by
        unfold row_metrics
        rw [h]
        exact hm.2
      rw [hz]
      simp
  · refine ⟨by simp [build_unit, h], ?_⟩
    rw [build_unit_roi]
    have hz : (row_metrics row).2.2 = 0 := by
      unfold row_metrics
      rw [h]
      exact derive_roi_of_empty_rental _ _ _
    rw [hz]
    simp

/-- Claim C10 witness: a row with every key missing yields the empty
bedroom field. -/
theorem build_unit_missing_keys_witness :
    (build_unit ⟨none, none, none, none, none, none, none, none, none⟩).bedrooms = "" :=
  ((build_unit_missing_keys_spec ⟨none, none, none, none, none, none, none, none, none⟩).2.2.1)
    rfl

theorem int_list_sum_cast (l : List ℤ) :
    ((l.sum : ℤ) : ℚ) = (l.map (fun z : ℤ => (z : ℚ))).sum := by
  induction l with
  | nil => simp
  | cons a l ih => simp [ih]

theorem list_sum_map_mul (ws : List ℤ) (r : ℚ) :
    (ws.map (fun w : ℤ => (w : ℚ) * r)).sum = ((ws.sum : ℤ) : ℚ) * r := by
  induction ws with
  | nil => simp
  | cons a l ih =>
    simp only [List.map_cons, List.sum_cons, ih, Int.cast_add]
    ring

theorem scaled_widths_nonneg (ws : List ℤ) (T : ℤ) (hpos : ∀ w ∈ ws, 0 < w)
    (hT : 0 ≤ T) : ∀ w ∈ scaled_widths ws T, 0 ≤ w := by
  intro w hw
  unfold scaled_widths at hw
  rcases List.mem_map.mp hw with ⟨v, hv, rfl⟩
  apply pyint_nonneg
  have hs : (0 : ℚ) ≤ ((ws.sum : ℤ) : ℚ) := by
    have := List.sum_nonneg (fun x hx => (hpos x hx).le)
    exact_mod_cast this
  have hv2 : (0 : ℚ) ≤ ((v : ℤ) : ℚ) := by exact_mod_cast (hpos v hv).le
  have hT2 : (0 : ℚ) ≤ ((T : ℤ) : ℚ) := by exact_mod_cast hT
  exact mul_nonneg hv2 (div_nonneg hT2 hs)

theorem scaled_widths_sum_le (ws : List ℤ) (T : ℤ) (hpos : ∀ w ∈ ws, 0 < w)
    (hT : 0 ≤ T) (hne : ws ≠ []) : (scaled_widths ws T).sum ≤ T := by
  have hS : 0 < ws.sum := List.sum_pos ws hpos hne
  have hSQ : (0 : ℚ) < ((ws.sum : ℤ) : ℚ) := by exact_mod_cast hS
  have key : (((scaled_widths ws T).sum : ℤ) : ℚ) ≤ ((T : ℤ) : ℚ) := by
    rw [int_list_sum_cast]
    unfold scaled_widths
    rw [List.map_map]
    have h1 : (ws.map ((fun z : ℤ => (z : ℚ))
          ∘ fun w : ℤ => pyint ((w : ℚ) * ((T : ℚ) / (ws.sum : ℚ))))).sum
        ≤ (ws.map (fun w : ℤ => (w : ℚ) * ((T : ℚ) / (ws.sum : ℚ)))).sum := by
      apply List.sum_le_sum
      intro w hw
      have harg : (0 : ℚ) ≤ (w : ℚ) * ((T : ℚ) / (ws.sum : ℚ)) := by
        have hv2 : (0 : ℚ) ≤ ((w : ℤ) : ℚ) := by exact_mod_cast (hpos w hw).le
        have hT2 : (0 : ℚ) ≤ ((T : ℤ) : ℚ) := by exact_mod_cast hT
        exact mul_nonneg hv2 (div_nonneg hT2 hSQ.le)
      simpa using pyint_le harg
    refine h1.trans ?_
    rw [list_sum_map_mul, mul_comm, div_mul_cancel₀ _ (ne_of_gt hSQ)]
  exact_mod_cast key

theorem addToLast_length : ∀ (l : List ℤ) (a : ℤ), (addToLast l a).length = l.length
  | [], _ => rfl
  | [_], _ => rfl
  | w :: v :: rest, a => by
    have ih := addToLast_length (v :: rest) a
    simp only [addToLast, List.length_cons, ih]

theorem addToLast_sum : ∀ (l : List ℤ) (a : ℤ), l ≠ [] → (addToLast l a).sum = l.sum + a
  | [], _, h => absurd rfl h
  | [w], a, _ => by simp [addToLast]
  | w :: v :: rest, a, _ => by
    have ih := addToLast_sum (v :: rest) a (by simp)
    simp only [addToLast, List.sum_cons, ih]
    ring

theorem addToLast_zero : ∀ l : List ℤ, addToLast l 0 = l
  | [] => rfl
  | [w] => by simp [addToLast]
  | w :: v :: rest => by
    simp only [addToLast, addToLast_zero (v :: rest)]

theorem addToLast_mem_nonneg : ∀ (l : List ℤ) (a : ℤ), (∀ w ∈ l, 0 ≤ w) → 0 ≤ a →
    ∀ w ∈ addToLast l a, 0 ≤ w
  | [], _, _, _ => by simp [addToLast]
  | [v], a, hl, ha => by
    simp only [addToLast, List.mem_singleton]
    intro x hx
    subst hx
    exact add_nonneg (hl v (by simp)) ha
  | w :: v :: rest, a, hl, ha => by
    intro x hx
    simp only [addToLast, List.mem_cons] at hx
    rcases hx with rfl | hx
    · exact hl x (by simp)
    · exact addToLast_mem_nonneg (v :: rest) a (fun y hy => hl y (by simp [hy])) ha x hx

theorem scaled_widths_of_sum_eq (ws : List ℤ) (T : ℤ) (h : ws.sum = T)
    (h0 : ws.sum ≠ 0) : scaled_widths ws T = ws := by
  unfold scaled_widths
  have hq : ((ws.sum : ℤ) : ℚ) ≠ 0 := by exact_mod_cast h0
  have hall : ∀ w ∈ ws, pyint ((w : ℚ) * ((T : ℚ) / (ws.sum : ℚ))) = w := by
    intro w hw
    rw [← h, div_self hq, mul_one, pyint_intCast]
  calc ws.map (fun w : ℤ => pyint ((w : ℚ) * ((T : ℚ) / (ws.sum : ℚ))))
      = ws.map (fun w => w) := List.map_congr_left hall
    _ = ws := List.map_id ws

theorem plan_widths_eq (ws : List ℤ) (T : ℤ) (h0 : ws.sum ≠ 0) :
    plan_widths ws T
      = addToLast (scaled_widths ws T) (T - (scaled_widths ws T).sum) := by
  unfold plan_widths
  split
  · rename_i h
    rw [scaled_widths_of_sum_eq ws T h h0, h, sub_self, addToLast_zero]
  · rfl

theorem column_offsets_chain : ∀ (L : ℚ) (ws : List ℤ), (∀ w ∈ ws, 0 ≤ w) →
    List.Chain' (· ≤ ·) (column_offsets L ws)
  | _, [], _ => by simp [column_offsets]
  | _, [_], _ => by simp [column_offsets]
  | L, w :: v :: rest, h => by
    rw [column_offsets, column_offsets, List.chain'_cons]
    constructor
    · have hw : (0 : ℚ) ≤ ((w : ℤ) : ℚ) := by exact_mod_cast h w (by simp)
      linarith
    · exact column_offsets_chain (L + w) (v :: rest) (fun x hx => h x (by simp [hx]))

/-- Claim C4 counterexample: with the positive nominal widths [1, 1] and the
positive total width 1 the flooring yields the final widths [0, 1], so both
columns start at the same offset and the offsets are not strictly
increasing. -/
theorem plan_layout_offsets_cex :
    plan_widths [1, 1] 1 = [0, 1] ∧
    column_offsets 0 (plan_widths [1, 1] 1) = [0, 0] ∧
    ¬ List.Chain' (· < ·) (column_offsets 0 (plan_widths [1, 1] 1)) := by
  refine ⟨by decide, by decide, ?_⟩
  rw [show column_offsets 0 (plan_widths [1, 1] 1) = [0, 0] by decide]
  simp [List.chain'_cons]

/-- Claim C4 (amended): for every nonempty ordered list of positive nominal
column widths and positive total width, the planner truncates each
proportionally scaled width `int(nominal * total / sum)` and adds the
entire rounding remainder to the last column; the final widths sum to the
total width exactly, none is negative, column names and order are
preserved, and the absolute offsets are the running prefix sums of the
final widths from the left margin; the offsets are non-decreasing — they
are not strictly increasing in general, because flooring can produce a
zero-width column. -/
theorem plan_layout_spec (cols : List (String × ℤ)) (T : ℤ) (L : ℚ)
    (hne : cols ≠ []) (hpos : ∀ p ∈ cols, 0 < p.2) (hT : 0 < T) :
    plan_widths (cols.map Prod.snd) T
      = addToLast (scaled_widths (cols.map Prod.snd) T)
          (T - (scaled_widths (cols.map Prod.snd) T).sum) ∧
    (plan_widths (cols.map Prod.snd) T).sum = T ∧
    (∀ w ∈ plan_widths (cols.map Prod.snd) T, 0 ≤ w) ∧
    (plan_layout cols T).map Prod.fst = cols.map Prod.fst ∧
    (plan_layout cols T).map Prod.snd = plan_widths (cols.map Prod.snd) T ∧
    List.Chain' (· ≤ ·) (column_offsets L (plan_widths (cols.map Prod.snd) T)) := by
  set ws := cols.map Prod.snd with hws
  have hwne : ws ≠ [] := by
    intro hc
    exact hne (by simpa [hws] using hc)
  have hwpos : ∀ w ∈ ws, 0 < w := by
    intro w hw
    rcases List.mem_map.mp hw with ⟨p, hp, rfl⟩
    exact hpos p hp
  have hS : 0 < ws.sum := List.sum_pos ws hwpos hwne
  have hsum_le : (scaled_widths ws T).sum ≤ T := scaled_widths_sum_le ws T hwpos hT.le hwne
  have heq := plan_widths_eq ws T (ne_of_gt hS)
  have hnn : ∀ w ∈ plan_widths ws T, 0 ≤ w := by
    rw [heq]
    exact addToLast_mem_nonneg _ _ (scaled_widths_nonneg ws T hwpos hT.le)
      (sub_nonneg.mpr hsum_le)
  have hsne : scaled_widths ws T ≠ [] := by
    unfold scaled_widths
    intro hc
    exact hwne (by simpa using hc)
  have hsum : (plan_widths ws T).sum = T := by
    rw [heq, addToLast_sum _ _ hsne]
    ring
  have hlen : (plan_widths ws T).length = ws.length := by
    rw [heq, addToLast_length]
    unfold scaled_widths
    simp
  refine ⟨heq, hsum, hnn, ?_, ?_, column_offsets_chain L _ hnn⟩
  · unfold plan_layout
    apply List.map_fst_zip
    rw [← hws, hlen, hws]
    simp
  · unfold plan_layout
    apply List.map_snd_zip
    rw [← hws, hlen, hws]
    simp

/-- Claim C4 witness: the nominal widths [2, 3] scaled to the total width
10 sum to exactly 10. -/
theorem plan_layout_spec_witness :
    (plan_widths ([("a", 2), ("b", 3)].map Prod.snd) 10).sum = 10 :=
  (plan_layout_spec [("a", 2), ("b", 3)] 10 0 (by decide) (by decide) (by decide)).2.1
